import Mathlib

/-!
Verification of the chronos sync core: a shallow embedding of the Supabase
edge functions `zoom-webhook`, `zoom-oauth` (cron-trigger half) and
`zoom-users`, together with the database tables they mutate.

Conventions of the embedding:
* Machine integers and timestamps are `Int`/`Nat`; 32-bit overflow in the
  hash is explicit `% 2 ^ 32`.
* Bytes are `Nat` values below 256 in a `List`; `TextEncoder.encode` is
  UTF-8 encoding of the string's characters.
* Database tables are association lists keyed by the business key; a
  PostgREST `upsert(obj, onConflict)` merges exactly the JSON keys present
  in `obj` into the row (the JS client serialises with `JSON.stringify`,
  which drops `undefined` properties, so an absent field never reaches the
  store; on insert, absent columns are null).  Nullable columns are
  `Option` fields.
* Network effects (the OAuth refresh call, the paginated user listing) are
  passed in as explicit response values; store failures are injected
  through explicit error flags, mirroring the `{ error }` results the
  client returns.
-/

namespace Chronos

/-! ## Bytes, hex, UTF-8 -/

/-- Truncation to a 32-bit word. -/
def w32 (x : Nat) : Nat := x % 4294967296

/-- Right rotation of a 32-bit word. -/
def rotr32 (n x : Nat) : Nat := w32 ((x >>> n) ||| (x <<< (32 - n)))

/-- Bitwise complement on 32 bits. -/
def not32 (x : Nat) : Nat := 4294967295 ^^^ x

def sumE0 (x : Nat) : Nat := rotr32 2 x ^^^ rotr32 13 x ^^^ rotr32 22 x

def sumE1 (x : Nat) : Nat := rotr32 6 x ^^^ rotr32 11 x ^^^ rotr32 25 x

def sigW0 (x : Nat) : Nat := rotr32 7 x ^^^ rotr32 18 x ^^^ (x >>> 3)

def sigW1 (x : Nat) : Nat := rotr32 17 x ^^^ rotr32 19 x ^^^ (x >>> 10)

def ch32 (x y z : Nat) : Nat := (x &&& y) ^^^ (not32 x &&& z)

def maj32 (x y z : Nat) : Nat := (x &&& y) ^^^ (x &&& z) ^^^ (y &&& z)

/-- The 64 SHA-256 round constants. -/
def shaK : List Nat :=
  [1116352408, 1899447441, 3049323471, 3921009573, 961987163,
   1508970993, 2453635748, 2870763221, 3624381080, 310598401,
   607225278, 1426881987, 1925078388, 2162078206, 2614888103,
   3248222580, 3835390401, 4022224774, 264347078, 604807628,
   770255983, 1249150122, 1555081692, 1996064986, 2554220882,
   2821834349, 2952996808, 3210313671, 3336571891, 3584528711,
   113926993, 338241895, 666307205, 773529912, 1294757372,
   1396182291, 1695183700, 1986661051, 2177026350, 2456956037,
   2730485921, 2820302411, 3259730800, 3345764771, 3516065817,
   3600352804, 4094571909, 275423344, 430227734, 506948616,
   659060556, 883997877, 958139571, 1322822218, 1537002063,
   1747873779, 1955562222, 2024104815, 2227730452, 2361852424,
   2428436474, 2756734187, 3204031479, 3329325298]

/-- Big-endian representation of a value in a fixed number of bytes. -/
def beBytes : Nat → Nat → List Nat
  | 0, _ => []
  | n + 1, v => beBytes n (v / 256) ++ [v % 256]

/-- Group bytes into big-endian 32-bit words. -/
def bytesToWords : List Nat → List Nat
  | a :: b :: c :: d :: rest => (((a * 256 + b) * 256 + c) * 256 + d) :: bytesToWords rest
  | _ => []

/-- Extend the 16 message-schedule words by the given number of rounds. -/
def extendSchedule : Nat → List Nat → List Nat
  | 0, acc => acc
  | n + 1, acc =>
    let len := acc.length
    let t := w32 (sigW1 (acc.getD (len - 2) 0) + acc.getD (len - 7) 0 +
                  sigW0 (acc.getD (len - 15) 0) + acc.getD (len - 16) 0)
    extendSchedule n (acc ++ [t])

/-- The eight SHA-256 working variables. -/
structure Hash8 where
  a : Nat
  b : Nat
  c : Nat
  d : Nat
  e : Nat
  f : Nat
  g : Nat
  h : Nat
deriving DecidableEq

/-- One SHA-256 compression round. -/
def shaRound (s : Hash8) (kw : Nat × Nat) : Hash8 :=
  let t1 := w32 (s.h + sumE1 s.e + ch32 s.e s.f s.g + kw.1 + kw.2)
  let t2 := w32 (sumE0 s.a + maj32 s.a s.b s.c)
  ⟨w32 (t1 + t2), s.a, s.b, s.c, w32 (s.d + t1), s.e, s.f, s.g⟩

/-- Compress one 64-byte block into the running hash state. -/
def compressBlock (h : Hash8) (block : List Nat) : Hash8 :=
  let ws := extendSchedule 48 (bytesToWords block)
  let s := (shaK.zip ws).foldl shaRound h
  ⟨w32 (h.a + s.a), w32 (h.b + s.b), w32 (h.c + s.c), w32 (h.d + s.d),
   w32 (h.e + s.e), w32 (h.f + s.f), w32 (h.g + s.g), w32 (h.h + s.h)⟩

/-- Split a byte list into 64-byte blocks; the first argument is fuel and is
always instantiated with the length of the list, which bounds the number of
blocks. -/
def chunk64 : Nat → List Nat → List (List Nat)
  | 0, _ => []
  | _, [] => []
  | n + 1, l => l.take 64 :: chunk64 n (l.drop 64)

/-- SHA-256 padding: `0x80`, zeros to 56 mod 64, then the bit length in 8
big-endian bytes. -/
def padMessage (msg : List Nat) : List Nat :=
  let l := msg.length
  msg ++ [0x80] ++ List.replicate ((64 - (l + 9) % 64) % 64) 0 ++ beBytes 8 (8 * l)

/-- The SHA-256 initial hash value. -/
def shaH0 : Hash8 :=
  ⟨1779033703, 3144134277, 1013904242, 2773480762,
   1359893119, 2600822924, 528734635, 1541459225⟩

/-- SHA-256 digest (32 bytes) of a byte list. -/
def sha256 (msg : List Nat) : List Nat :=
  let padded := padMessage msg
  let final := (chunk64 padded.length padded).foldl compressBlock shaH0
  beBytes 4 final.a ++ beBytes 4 final.b ++ beBytes 4 final.c ++ beBytes 4 final.d ++
  beBytes 4 final.e ++ beBytes 4 final.f ++ beBytes 4 final.g ++ beBytes 4 final.h

/-- HMAC-SHA256 with the standard 64-byte block size, the construction behind
`crypto.subtle.sign('HMAC', key, message)` for an SHA-256 key. -/
def hmacSha256 (key msg : List Nat) : List Nat :=
  let k0 := if key.length > 64 then sha256 key else key
  let kp := k0 ++ List.replicate (64 - k0.length) 0
  sha256 ((kp.map (fun b => b ^^^ 0x5c)) ++ sha256 ((kp.map (fun b => b ^^^ 0x36)) ++ msg))

/-- A hex digit character, lowercase as in JS `toString(16)`. -/
def hexDigit (n : Nat) : Char := if n < 10 then Char.ofNat (48 + n) else Char.ofNat (87 + n)

/-- Two-digit lowercase hex of a byte, as in `b.toString(16).padStart(2, '0')`. -/
def hexByte (b : Nat) : String := String.mk [hexDigit (b / 16 % 16), hexDigit (b % 16)]

/-- Hex encoding of a byte list, as the `hashArray.map(...).join('')` step. -/
def hexOfBytes (bs : List Nat) : String := String.join (bs.map hexByte)

/-- UTF-8 bytes of a string, the effect of `new TextEncoder().encode(s)`. -/
def strBytes (s : String) : List Nat :=
  (s.data.map String.utf8EncodeChar).flatten.map UInt8.toNat

/-- Does `s` start with the second string?  (`String.startsWith` of JS.) -/
def listStarts : List Char → List Char → Bool
  | _, [] => true
  | [], _ :: _ => false
  | a :: as, b :: bs => a == b && listStarts as bs

def strStartsWith (s p : String) : Bool := listStarts s.data p.data

/-! ## Signature verifier (`zoom-webhook/index.ts`, `verifyZoomSignature`) -/

/-- The signature the webhook computes for a timestamp/body pair:
`'v0=' + hex(HMAC-SHA256(secret, 'v0:' + timestamp + ':' + body))`. -/
def zoomSignatureFor (secret : String) (t : Int) (rawBody : String) : String :=
  "v0=" ++ hexOfBytes (hmacSha256 (strBytes secret) (strBytes ("v0:" ++ toString t ++ ":" ++ rawBody)))

/-- `verifyZoomSignature(req, body)`.  The two headers are modelled as the
optional signature string and the optional parsed integer timestamp (the
source compares `Math.abs(now - parseInt(timestamp))`; the timestamp is
rendered back into the signed message in canonical decimal).  A present but
empty signature header is falsy in JS and is rejected by the same guard as a
missing one.  A missing `ZOOM_WEBHOOK_SECRET_TOKEN` makes `TextEncoder`
encode the WebIDL default empty string, hence `secret.getD ""`. -/
def verifyZoomSignature (now : Int) (secret : Option String)
    (sig : Option String) (ts : Option Int) (rawBody : String) : Bool :=
  match sig, ts with
  | some s, some t =>
    if s = "" then false
    else if (now - t).natAbs > 300 then false
    else s == zoomSignatureFor (secret.getD "") t rawBody
  | _, _ => false

/-! ## Store model

Tables are association lists keyed by the unique business key.  `upsertAssoc`
is PostgREST insert-or-merge on the conflict key; `deleteAssoc` is
`delete().eq(key, k)`; `lookupAssoc` is a point read. -/

def upsertAssoc {ρ : Type} (tbl : List (String × ρ)) (k : String)
    (f : Option ρ → ρ) : List (String × ρ) :=
  match tbl with
  | [] => [(k, f none)]
  | (k2, r) :: rest => if k2 = k then (k, f (some r)) :: rest else (k2, r) :: upsertAssoc rest k f

def deleteAssoc {ρ : Type} (tbl : List (String × ρ)) (k : String) : List (String × ρ) :=
  tbl.filter (fun p => p.1 ≠ k)

def lookupAssoc {ρ : Type} (tbl : List (String × ρ)) (k : String) : Option ρ :=
  match tbl with
  | [] => none
  | (k2, r) :: rest => if k2 = k then some r else lookupAssoc rest k

/-- Merge of one JSON field on upsert: a key present in the payload overwrites
the stored column, a key absent from the payload (an `undefined` property,
dropped by `JSON.stringify`) leaves the stored column unchanged. -/
def mergeField {α : Type} (p old : Option α) : Option α :=
  match p with
  | some v => some v
  | none => old

/-- A `zoom_meetings` row (columns written by the sync paths; nullable
columns are `Option`). -/
structure MeetingRow where
  uuid : Option String
  host_id : Option String
  topic : Option String
  type : Option Int
  duration : Option Int
  timezone : Option String
  join_url : Option String
  created_at : Option String
  updated_at : String
deriving DecidableEq

/-- The meeting fields a single upsert payload may carry (besides the key and
`updated_at`, which are always present). -/
structure MeetingPatch where
  uuid : Option String
  host_id : Option String
  topic : Option String
  type : Option Int
  duration : Option Int
  timezone : Option String
  join_url : Option String
  created_at : Option String
deriving DecidableEq

/-- Row produced by upserting a meeting payload over an existing row (or over
no row: absent columns of a fresh insert are null). -/
def applyMeetingPatch (p : MeetingPatch) (nowIso : String) (old : Option MeetingRow) : MeetingRow :=
  let o := old.getD ⟨none, none, none, none, none, none, none, none, ""⟩
  { uuid := mergeField p.uuid o.uuid
    host_id := mergeField p.host_id o.host_id
    topic := mergeField p.topic o.topic
    type := mergeField p.type o.type
    duration := mergeField p.duration o.duration
    timezone := mergeField p.timezone o.timezone
    join_url := mergeField p.join_url o.join_url
    created_at := mergeField p.created_at o.created_at
    updated_at := nowIso }

/-- A `zoom_users` row. -/
structure UserRow where
  email : Option String
  first_name : Option String
  last_name : Option String
  display_name : Option String
  type : Option Int
  status : Option String
  pmi : Option Int
  timezone : Option String
  dept : Option String
  created_at : Option String
  last_login_time : Option String
  updated_at : String
deriving DecidableEq

/-- The user fields a single upsert payload may carry. -/
structure UserPatch where
  email : Option String
  first_name : Option String
  last_name : Option String
  display_name : Option String
  type : Option Int
  status : Option String
  pmi : Option Int
  timezone : Option String
  dept : Option String
  created_at : Option String
  last_login_time : Option String
deriving DecidableEq

def applyUserPatch (p : UserPatch) (nowIso : String) (old : Option UserRow) : UserRow :=
  let o := old.getD ⟨none, none, none, none, none, none, none, none, none, none, none, ""⟩
  { email := mergeField p.email o.email
    first_name := mergeField p.first_name o.first_name
    last_name := mergeField p.last_name o.last_name
    display_name := mergeField p.display_name o.display_name
    type := mergeField p.type o.type
    status := mergeField p.status o.status
    pmi := mergeField p.pmi o.pmi
    timezone := mergeField p.timezone o.timezone
    dept := mergeField p.dept o.dept
    created_at := mergeField p.created_at o.created_at
    last_login_time := mergeField p.last_login_time o.last_login_time
    updated_at := nowIso }

abbrev MeetingsTable := List (String × MeetingRow)

abbrev UsersTable := List (String × UserRow)

/-- One row of the `zoom_events` audit log (`raw_data` is the whole JSON body
and is not modelled beyond the projected columns). -/
structure EventRecord where
  event_type : String
  meeting_id : Option String
  meeting_uuid : Option String
  host_id : Option String
  topic : Option String
  start_time : Option String
  end_time : Option String
  timezone : Option String
  duration : Option Int
  event_timestamp : Option Int
deriving DecidableEq

/-- The three tables the webhook touches. -/
structure ChronosDB where
  zoom_events : List EventRecord
  zoom_meetings : MeetingsTable
  zoom_users : UsersTable
deriving DecidableEq

/-! ## Webhook handler (`zoom-webhook/index.ts`, `serve`) -/

/-- `body.payload.object` as read by the handler: every field the meeting and
user branches access, each possibly absent.  `id` is kept in its string form
(the source renders meeting ids with `.toString()`). -/
structure ZoomObject where
  id : Option String
  uuid : Option String
  host_id : Option String
  topic : Option String
  start_time : Option String
  end_time : Option String
  timezone : Option String
  duration : Option Int
  type : Option Int
  join_url : Option String
  first_name : Option String
  last_name : Option String
  display_name : Option String
  email : Option String
  status : Option String
  pmi : Option Int
  dept : Option String
deriving DecidableEq

def emptyObject : ZoomObject :=
  ⟨none, none, none, none, none, none, none, none, none, none, none, none, none, none,
   none, none, none⟩

/-- The parsed webhook JSON body, restricted to the fields the handler reads. -/
structure WebhookBody where
  event : String
  plainToken : Option String
  object : ZoomObject
  event_ts : Option Int
deriving DecidableEq

/-- Injected store outcomes: `logErr` makes the `zoom_events` insert fail,
`entityErr` makes the entity upsert/delete fail, mirroring the `{ error }`
results the source only logs. -/
structure StoreBehavior where
  logErr : Bool
  entityErr : Bool
deriving DecidableEq

def noStoreErr : StoreBehavior := ⟨false, false⟩

inductive RespBody where
  | ok
  | eventReceived
  | validation (plainToken : Option String) (encryptedToken : String)
  | unauthorized
  | configError
  | internalError
deriving DecidableEq

/-- An HTTP response: status code and the JSON body shape. -/
structure HResponse where
  status : Nat
  body : RespBody
deriving DecidableEq

def relevantEvents : List String :=
  ["meeting.started", "meeting.ended", "meeting.created", "meeting.updated", "meeting.deleted"]

/-- The `meetingData` log row built from the body. -/
def eventRecordOf (body : WebhookBody) : EventRecord :=
  { event_type := body.event
    meeting_id := body.object.id
    meeting_uuid := body.object.uuid
    host_id := body.object.host_id
    topic := body.object.topic
    start_time := body.object.start_time
    end_time := body.object.end_time
    timezone := body.object.timezone
    duration := body.object.duration
    event_timestamp := body.event_ts }

/-- The `syncData` meeting upsert payload (key and `updated_at` are handled by
`applyMeetingPatch`). -/
def meetingPatchOf (m : ZoomObject) : MeetingPatch :=
  { uuid := m.uuid
    host_id := m.host_id
    topic := m.topic
    type := m.type
    duration := m.duration
    timezone := m.timezone
    join_url := m.join_url
    created_at := none }

/-- The `userData` webhook upsert payload, after the source's explicit
stripping of `undefined` keys. -/
def userPatchOf (u : ZoomObject) : UserPatch :=
  { email := u.email
    first_name := u.first_name
    last_name := u.last_name
    display_name := u.display_name
    type := u.type
    status := u.status
    pmi := u.pmi
    timezone := u.timezone
    dept := u.dept
    created_at := none
    last_login_time := none }

/-- The meeting-table effect of one relevant meeting event (source lines
160-190).  `none` models the uncaught `m.id.toString()` TypeError when the
payload has no id (the outer catch then answers 500); a store error on the
delete/upsert is logged and leaves the table unchanged. -/
def syncMeetingState (event : String) (m : ZoomObject) (nowIso : String)
    (entityErr : Bool) (tbl : MeetingsTable) : Option MeetingsTable :=
  match m.id with
  | none => none
  | some mid =>
    if event = "meeting.deleted" then
      some (if entityErr then tbl else deleteAssoc tbl mid)
    else
      some (if entityErr then tbl else upsertAssoc tbl mid (applyMeetingPatch (meetingPatchOf m) nowIso))

/-- The user-table effect of one `user.*` event (source lines 208-234).  A
payload without an id matches no row on delete and fails the upsert
server-side; either way the error is only logged and the table is unchanged. -/
def syncUserState (event : String) (u : ZoomObject) (nowIso : String)
    (entityErr : Bool) (tbl : UsersTable) : UsersTable :=
  if event = "user.deleted" ∨ event = "user.disassociated" then
    match u.id with
    | none => tbl
    | some uid => if entityErr then tbl else deleteAssoc tbl uid
  else
    match u.id with
    | none => tbl
    | some uid => if entityErr then tbl else upsertAssoc tbl uid (applyUserPatch (userPatchOf u) nowIso)

/-- The webhook `serve` handler after CORS preflight and JSON parsing, in
source order: the `endpoint.url_validation` challenge (before any
verification), the signature gate, the relevant meeting events (audit insert,
then delete or upsert), the `user.*` events, and the generic acknowledgment.
`rawBody` is the request text whose parse is `body`; `now` is the epoch
second used by the verifier and `nowIso` the ISO timestamp written into
`updated_at`. -/
def handleWebhook (secret : Option String) (now : Int) (nowIso : String)
    (beh : StoreBehavior) (sig : Option String) (ts : Option Int)
    (rawBody : String) (body : WebhookBody) (db : ChronosDB) : ChronosDB × HResponse :=
  if body.event = "endpoint.url_validation" then
    match secret with
    | none => (db, ⟨500, .configError⟩)
    | some s =>
      (db, ⟨200, .validation body.plainToken
        (hexOfBytes (hmacSha256 (strBytes s) (strBytes (body.plainToken.getD ""))))⟩)
  else if verifyZoomSignature now secret sig ts rawBody = false then
    (db, ⟨401, .unauthorized⟩)
  else if relevantEvents.contains body.event then
    let db1 := if beh.logErr then db
               else { db with zoom_events := db.zoom_events ++ [eventRecordOf body] }
    match syncMeetingState body.event body.object nowIso beh.entityErr db1.zoom_meetings with
    | none => (db1, ⟨500, .internalError⟩)
    | some tbl => ({ db1 with zoom_meetings := tbl }, ⟨200, .ok⟩)
  else if strStartsWith body.event "user." then
    ({ db with zoom_users := syncUserState body.event body.object nowIso beh.entityErr db.zoom_users },
     ⟨200, .ok⟩)
  else
    (db, ⟨200, .eventReceived⟩)

/-! ## Bulk pull (`zoom-oauth/index.ts` cron half: `syncZoomUsers`,
`syncZoomMeetings`; `zoom-users/index.ts` step 4) -/

/-- A user as returned by the provider's listing endpoint; the id is always
present, the other fields may be absent from the JSON. -/
structure RemoteUser where
  id : String
  email : Option String
  first_name : Option String
  last_name : Option String
  display_name : Option String
  type : Option Int
  status : Option String
  pmi : Option Int
  timezone : Option String
  dept : Option String
  created_at : Option String
  last_login_time : Option String
deriving DecidableEq

/-- A meeting as returned by the per-user meetings listing; the id is kept in
the string form `String(meeting.id)` used as the upsert key. -/
structure RemoteMeeting where
  id : String
  uuid : Option String
  host_id : Option String
  topic : Option String
  type : Option Int
  duration : Option Int
  timezone : Option String
  join_url : Option String
  created_at : Option String
deriving DecidableEq

def userPatchOfRemote (u : RemoteUser) : UserPatch :=
  { email := u.email
    first_name := u.first_name
    last_name := u.last_name
    display_name := u.display_name
    type := u.type
    status := u.status
    pmi := u.pmi
    timezone := u.timezone
    dept := u.dept
    created_at := u.created_at
    last_login_time := u.last_login_time }

def meetingPatchOfRemote (m : RemoteMeeting) : MeetingPatch :=
  { uuid := m.uuid
    host_id := m.host_id
    topic := m.topic
    type := m.type
    duration := m.duration
    timezone := m.timezone
    join_url := m.join_url
    created_at := m.created_at }

/-- The `zoom_users` effect of `syncZoomUsers`: one upsert keyed on `id` per
user in the fetched snapshot, in order.  (The `zoom-users` function batches
the same per-id upserts into one call.)  No delete ever occurs. -/
def syncZoomUsersApply (snapshot : List RemoteUser) (nowIso : String) (tbl : UsersTable) : UsersTable :=
  snapshot.foldl (fun t u => upsertAssoc t u.id (applyUserPatch (userPatchOfRemote u) nowIso)) tbl

/-- The `zoom_meetings` effect of `syncZoomMeetings`: one upsert keyed on
`meeting_id` per fetched meeting.  No delete ever occurs. -/
def syncZoomMeetingsApply (snapshot : List RemoteMeeting) (nowIso : String) (tbl : MeetingsTable) : MeetingsTable :=
  snapshot.foldl (fun t m => upsertAssoc t m.id (applyMeetingPatch (meetingPatchOfRemote m) nowIso)) tbl

/-! ## Pagination (`zoom-users/index.ts` step 3, `zoom-oauth` `syncZoomUsers`
loop) -/

/-- The `do { ... } while (nextPageToken)` cursor loop.  `pageOf` is the
provider: for a cursor it returns the page items and the next cursor
(`data.next_page_token || ''`).  The loop requests the current cursor,
appends all items of the page, stops when the returned cursor is empty and
otherwise continues with it.  `fuel` bounds the number of requests; `none`
means the fuel ran out before the provider returned an empty cursor. -/
def listUsersPaged (pageOf : String → List RemoteUser × String) :
    Nat → String → List RemoteUser → Option (List RemoteUser)
  | 0, _, _ => none
  | fuel + 1, cursor, acc =>
    let page := pageOf cursor
    if page.2 = "" then some (acc ++ page.1)
    else listUsersPaged pageOf fuel page.2 (acc ++ page.1)

/-- `listUsers()`: run the cursor loop from the initial empty cursor. -/
def listUsers (pageOf : String → List RemoteUser × String) (fuel : Nat) :
    Option (List RemoteUser) :=
  listUsersPaged pageOf fuel "" []

/-! ## Token lifecycle (`zoom-oauth/index.ts` cron half: `refreshZoomToken`;
`zoom-users/index.ts` step 2) -/

/-- The singleton `zoom_tokens` row.  `expires_at` is an epoch timestamp; the
cron-trigger function compares it in milliseconds, the `zoom-users` function
in seconds. -/
structure TokenRow where
  access_token : String
  refresh_token : String
  expires_at : Int
deriving DecidableEq

/-- The provider's answer to the refresh call: HTTP success flag and the JSON
token fields. -/
structure RefreshResponse where
  ok : Bool
  access_token : String
  refresh_token : String
  expires_in : Int
deriving DecidableEq

/-- `refreshZoomToken(supabase)` of the cron-trigger function, times in
milliseconds.  Result: the access token the caller gets, the stored row after
the call, and the number of refresh calls performed.  Errors are the thrown
`Error` messages. -/
def refreshZoomToken (store : Option TokenRow) (now : Int) (resp : RefreshResponse) :
    Except String (String × Option TokenRow × Nat) :=
  match store with
  | none => .error "No Zoom tokens found"
  | some t =>
    if t.expires_at - now > 5 * 60 * 1000 then .ok (t.access_token, some t, 0)
    else if resp.ok = false then .error "Failed to refresh token"
    else
      let t2 : TokenRow :=
        { access_token := resp.access_token
          refresh_token := resp.refresh_token
          expires_at := now + resp.expires_in * 1000 }
      .ok (resp.access_token, some t2, 1)

/-- The token-refresh step of `zoom-users/index.ts` (lines 54-84), times in
seconds: refresh when `now >= expiresAt - 300`, otherwise keep the stored
token without any call or write. -/
def zoomUsersRefreshStep (t : TokenRow) (now : Int) (resp : RefreshResponse) :
    Except String (String × TokenRow × Nat) :=
  if now ≥ t.expires_at - 300 then
    if resp.ok = false then .error "Token refresh failed"
    else .ok (resp.access_token,
              { access_token := resp.access_token
                refresh_token := resp.refresh_token
                expires_at := now + resp.expires_in }, 1)
  else .ok (t.access_token, t, 0)

/-! ## Cron trigger dispatch (`zoom-oauth/index.ts` cron half, `serve`) -/

/-- Outcome of one cron-trigger invocation: HTTP status, the `error` field of
the JSON body when present, the stored credential afterwards, and how many
refresh calls were made. -/
structure CronOutcome where
  status : Nat
  errorMsg : Option String
  store : Option TokenRow
  refreshCalls : Nat
deriving DecidableEq

def knownCronActions : List String :=
  ["sync-users", "sync-meetings", "sync-all", "refresh-token"]

/-- The cron-trigger `serve` handler: shared-secret check, then
`refreshZoomToken` (unconditionally, before the `switch (action)`), then the
action dispatch.  The sync actions' listing work is outside this model; only
the dispatch outcome and the credential effects are kept. -/
def cronTrigger (cronSecret : Option String) (authToken : Option String)
    (action : Option String) (store : Option TokenRow) (now : Int)
    (resp : RefreshResponse) : CronOutcome :=
  match cronSecret with
  | none => ⟨500, some "CRON_SECRET not configured", store, 0⟩
  | some cs =>
    if authToken = some cs then
      match refreshZoomToken store now resp with
      | .error e => ⟨500, some e, store, 0⟩
      | .ok (_, store2, calls) =>
        match action with
        | none => ⟨400, some "Unknown action", store2, calls⟩
        | some a =>
          if knownCronActions.contains a then ⟨200, none, store2, calls⟩
          else ⟨400, some "Unknown action", store2, calls⟩
    else ⟨401, some "Unauthorized", store, 0⟩

/-! ## Concrete fixtures used by witnesses -/

def sampleUserRow : UserRow :=
  ⟨some "e@x", some "Ana", none, none, some 2, some "active", none, none, none, none, none, "t0"⟩

def sampleMeetingRow : MeetingRow :=
  ⟨some "uu", some "h1", some "Standup", some 2, some 30, none, none, none, "t0"⟩

/-- The two-page provider of end-to-end scenario B: page 1 is `[u1]` with
cursor `"X"`, page 2 is `[u2]` with cursor `""`. -/
def scenarioBProvider (u1 u2 : RemoteUser) : String → List RemoteUser × String :=
  fun c => if c = "" then ([u1], "X") else if c = "X" then ([u2], "") else ([], "")

def emptyDB : ChronosDB := ⟨[], [], []⟩

def sampleMeetingEvent : WebhookBody :=
  { event := "meeting.updated", plainToken := none,
    object := { emptyObject with id := some "m1", topic := some "T" }, event_ts := some 5 }

def sampleUserEvent : WebhookBody :=
  { event := "user.created", plainToken := none,
    object := { emptyObject with id := some "u1", email := some "e@x" }, event_ts := none }

/-! ## Store lemmas -/

theorem lookupAssoc_upsertAssoc_eq {ρ : Type} (tbl : List (String × ρ)) (k : String)
    (f : Option ρ → ρ) :
    lookupAssoc (upsertAssoc tbl k f) k = some (f (lookupAssoc tbl k)) := by
  induction tbl with
  | nil => simp [upsertAssoc, lookupAssoc]
  | cons p rest ih =>
    obtain ⟨k2, r⟩ := p
    by_cases h : k2 = k
    · simp [upsertAssoc, lookupAssoc, h]
    · simp [upsertAssoc, lookupAssoc, h, ih]

theorem lookupAssoc_upsertAssoc_ne {ρ : Type} (tbl : List (String × ρ)) (k k2 : String)
    (f : Option ρ → ρ) (h : k2 ≠ k) :
    lookupAssoc (upsertAssoc tbl k f) k2 = lookupAssoc tbl k2 := by
  have hk : k ≠ k2 := fun e => h e.symm
  induction tbl with
  | nil => simp [upsertAssoc, lookupAssoc, hk]
  | cons p rest ih =>
    obtain ⟨k3, r⟩ := p
    by_cases h3 : k3 = k
    · subst h3
      simp [upsertAssoc, lookupAssoc, hk]
    · simp [upsertAssoc, lookupAssoc, h3, ih]

theorem lookupAssoc_deleteAssoc_eq {ρ : Type} (tbl : List (String × ρ)) (k : String) :
    lookupAssoc (deleteAssoc tbl k) k = none := by
  induction tbl with
  | nil => rfl
  | cons p rest ih =>
    obtain ⟨k2, r⟩ := p
    by_cases h : k2 = k
    · simpa [deleteAssoc, List.filter, h] using ih
    · simpa [deleteAssoc, List.filter, h, lookupAssoc] using ih

theorem deleteAssoc_idem {ρ : Type} (tbl : List (String × ρ)) (k : String) :
    deleteAssoc (deleteAssoc tbl k) k = deleteAssoc tbl k := by
  simp [deleteAssoc, List.filter_filter]

theorem upsertAssoc_idem {ρ : Type} (tbl : List (String × ρ)) (k : String)
    (f : Option ρ → ρ) (hf : ∀ o, f (some (f o)) = f o) :
    upsertAssoc (upsertAssoc tbl k f) k f = upsertAssoc tbl k f := by
  induction tbl with
  | nil => simp [upsertAssoc, hf]
  | cons p rest ih =>
    obtain ⟨k2, r⟩ := p
    by_cases h : k2 = k
    · simp [upsertAssoc, h, hf]
    · simp [upsertAssoc, h, ih]

theorem lookup_foldl_upsert {α ρ : Type} (l : List α) (key : α → String)
    (f : α → Option ρ → ρ) (tbl : List (String × ρ)) (k : String)
    (h : ∀ a ∈ l, key a ≠ k) :
    lookupAssoc (l.foldl (fun t a => upsertAssoc t (key a) (f a)) tbl) k = lookupAssoc tbl k := by
  induction l generalizing tbl with
  | nil => rfl
  | cons a rest ih =>
    have hrest : ∀ b ∈ rest, key b ≠ k := fun b hb => h b (List.mem_cons_of_mem a hb)
    have hk : k ≠ key a := fun e => h a (List.mem_cons_self a rest) e.symm
    calc lookupAssoc (rest.foldl (fun t b => upsertAssoc t (key b) (f b))
            (upsertAssoc tbl (key a) (f a))) k
        = lookupAssoc (upsertAssoc tbl (key a) (f a)) k := ih _ hrest
      _ = lookupAssoc tbl k := lookupAssoc_upsertAssoc_ne tbl (key a) k (f a) hk

theorem mergeField_idem {α : Type} (p o : Option α) :
    mergeField p (mergeField p o) = mergeField p o := by
  cases p <;> rfl

theorem applyMeetingPatch_idem (p : MeetingPatch) (nowIso : String) (o : Option MeetingRow) :
    applyMeetingPatch p nowIso (some (applyMeetingPatch p nowIso o)) =
      applyMeetingPatch p nowIso o := by
  simp [applyMeetingPatch, mergeField_idem]

/-! ## Signature lemmas -/

theorem zoomSignatureFor_ne_empty (secret : String) (t : Int) (b : String) :
    zoomSignatureFor secret t b ≠ "" := by
  unfold zoomSignatureFor
  intro h
  have h2 := congrArg String.length h
  rw [String.length_append] at h2
  have h3 : ("v0=" : String).length = 3 := rfl
  have h4 : ("" : String).length = 0 := rfl
  omega

/-- The verifier accepts the signature it computes itself, whenever the
timestamp is inside the window. -/
theorem verify_self (now t : Int) (secret rawBody : String)
    (h : (now - t).natAbs ≤ 300) :
    verifyZoomSignature now (some secret) (some (zoomSignatureFor secret t rawBody))
      (some t) rawBody = true := by
  have e : verifyZoomSignature now (some secret) (some (zoomSignatureFor secret t rawBody))
      (some t) rawBody =
      (if zoomSignatureFor secret t rawBody = "" then false
       else if (now - t).natAbs > 300 then false
       else (zoomSignatureFor secret t rawBody == zoomSignatureFor secret t rawBody)) := rfl
  rw [e, if_neg (zoomSignatureFor_ne_empty secret t rawBody), if_neg (by omega)]
  simp

/-! ## Claims -/

/-- Claim C1: bulk pulls only upsert by key, so any user (or meeting) absent
from the paginated snapshot keeps its stored row unchanged, while a
`user.deleted` or `user.disassociated` webhook for a stored id does delete
the row. -/
theorem C1_deletion_asymmetry (snapshot : List RemoteUser) (ms : List RemoteMeeting)
    (nowIso : String) (users : UsersTable) (meetings : MeetingsTable)
    (uid mid : String) (obj : ZoomObject) :
    (uid ∉ snapshot.map RemoteUser.id →
      lookupAssoc (syncZoomUsersApply snapshot nowIso users) uid = lookupAssoc users uid) ∧
    (mid ∉ ms.map RemoteMeeting.id →
      lookupAssoc (syncZoomMeetingsApply ms nowIso meetings) mid = lookupAssoc meetings mid) ∧
    (obj.id = some uid →
      lookupAssoc (syncUserState "user.deleted" obj nowIso false users) uid = none) ∧
    (obj.id = some uid →
      lookupAssoc (syncUserState "user.disassociated" obj nowIso false users) uid = none) := by
  refine ⟨fun h => ?_, fun h => ?_, fun h => ?_, fun h => ?_⟩
  · refine lookup_foldl_upsert snapshot RemoteUser.id _ users uid (fun a ha e => h ?_)
    exact List.mem_map.mpr ⟨a, ha, e⟩
  · refine lookup_foldl_upsert ms RemoteMeeting.id _ meetings mid (fun a ha e => h ?_)
    exact List.mem_map.mpr ⟨a, ha, e⟩
  · simp [syncUserState, h, lookupAssoc_deleteAssoc_eq]
  · simp [syncUserState, h, lookupAssoc_deleteAssoc_eq]

theorem C1_witness :
    lookupAssoc (syncZoomUsersApply [⟨"a", none, none, none, none, none, none, none,
        none, none, none, none⟩] "iso" [("b", sampleUserRow)]) "b" =
      lookupAssoc [("b", sampleUserRow)] "b" ∧
    lookupAssoc (syncZoomMeetingsApply [⟨"n1", none, none, none, none, none, none, none,
        none⟩] "iso" [("m1", sampleMeetingRow)]) "m1" =
      lookupAssoc [("m1", sampleMeetingRow)] "m1" ∧
    lookupAssoc (syncUserState "user.deleted" { emptyObject with id := some "b" } "iso" false
      [("b", sampleUserRow)]) "b" = none ∧
    lookupAssoc (syncUserState "user.disassociated" { emptyObject with id := some "b" } "iso"
      false [("b", sampleUserRow)]) "b" = none := by
  refine ⟨?_, ?_, ?_, ?_⟩
  · exact (C1_deletion_asymmetry _ [] "iso" _ [] "b" "m1" emptyObject).1 (by decide)
  · exact (C1_deletion_asymmetry [] _ "iso" [] _ "b" "m1" emptyObject).2.1 (by decide)
  · exact (C1_deletion_asymmetry [] [] "iso" [("b", sampleUserRow)] [] "b" "m1"
      { emptyObject with id := some "b" }).2.2.1 rfl
  · exact (C1_deletion_asymmetry [] [] "iso" [("b", sampleUserRow)] [] "b" "m1"
      { emptyObject with id := some "b" }).2.2.2 rfl

/-- Claim C3: with more than the 300-second margin left before expiry the
stored access token is returned with no refresh call and no store write; at
or inside the margin exactly one refresh call happens and the returned token
is the newly persisted one.  Conjuncts one and two are the cron-trigger
`refreshZoomToken` (milliseconds), three and four the `zoom-users` refresh
step (seconds). -/
theorem C3_token_refresh_margin (t : TokenRow) (now : Int) (resp : RefreshResponse) :
    (t.expires_at - now > 300 * 1000 →
      refreshZoomToken (some t) now resp = .ok (t.access_token, some t, 0)) ∧
    (t.expires_at - now ≤ 300 * 1000 → resp.ok = true →
      refreshZoomToken (some t) now resp =
        .ok (resp.access_token,
             some ⟨resp.access_token, resp.refresh_token, now + resp.expires_in * 1000⟩, 1)) ∧
    (t.expires_at - now > 300 →
      zoomUsersRefreshStep t now resp = .ok (t.access_token, t, 0)) ∧
    (t.expires_at - now ≤ 300 → resp.ok = true →
      zoomUsersRefreshStep t now resp =
        .ok (resp.access_token, ⟨resp.access_token, resp.refresh_token, now + resp.expires_in⟩, 1)) := by
  refine ⟨fun h => ?_, fun h h2 => ?_, fun h => ?_, fun h h2 => ?_⟩
  · rw [refreshZoomToken, if_pos (by omega)]
  · rw [refreshZoomToken, if_neg (by omega)]
    simp [h2]
  · rw [zoomUsersRefreshStep, if_neg (by omega)]
  · rw [zoomUsersRefreshStep, if_pos (by omega)]
    simp [h2]

theorem C3_witness :
    refreshZoomToken (some ⟨"at", "rt", 2000000⟩) 1000000 ⟨true, "at2", "rt2", 3600⟩ =
      .ok ("at", some ⟨"at", "rt", 2000000⟩, 0) ∧
    refreshZoomToken (some ⟨"at", "rt", 1200000⟩) 1000000 ⟨true, "at2", "rt2", 3600⟩ =
      .ok ("at2", some ⟨"at2", "rt2", 1000000 + 3600 * 1000⟩, 1) ∧
    zoomUsersRefreshStep ⟨"at", "rt", 2000⟩ 1000 ⟨true, "at2", "rt2", 3600⟩ =
      .ok ("at", ⟨"at", "rt", 2000⟩, 0) ∧
    zoomUsersRefreshStep ⟨"at", "rt", 1200⟩ 1000 ⟨true, "at2", "rt2", 3600⟩ =
      .ok ("at2", ⟨"at2", "rt2", 1000 + 3600⟩, 1) :=
  ⟨(C3_token_refresh_margin ⟨"at", "rt", 2000000⟩ 1000000 ⟨true, "at2", "rt2", 3600⟩).1
      (by decide),
   (C3_token_refresh_margin ⟨"at", "rt", 1200000⟩ 1000000 ⟨true, "at2", "rt2", 3600⟩).2.1
      (by decide) rfl,
   (C3_token_refresh_margin ⟨"at", "rt", 2000⟩ 1000 ⟨true, "at2", "rt2", 3600⟩).2.2.1
      (by decide),
   (C3_token_refresh_margin ⟨"at", "rt", 1200⟩ 1000 ⟨true, "at2", "rt2", 3600⟩).2.2.2
      (by decide) rfl⟩

/-- Claim C8: one meeting delta applied twice leaves the same meetings table
as applying it once — both the upsert keyed on `meeting_id` and the delete
keyed on `meeting_id` are idempotent. -/
theorem C8_delta_idempotent (ev : String) (m : ZoomObject) (nowIso : String)
    (mid : String) (tbl tbl2 : MeetingsTable)
    (hid : m.id = some mid)
    (h1 : syncMeetingState ev m nowIso false tbl = some tbl2) :
    syncMeetingState ev m nowIso false tbl2 = some tbl2 := by
  unfold syncMeetingState at h1 ⊢
  rw [hid] at h1 ⊢
  by_cases hev : ev = "meeting.deleted"
  · simp [hev] at h1 ⊢
    subst h1
    exact deleteAssoc_idem tbl mid
  · simp [hev] at h1 ⊢
    subst h1
    exact upsertAssoc_idem tbl mid _ (applyMeetingPatch_idem (meetingPatchOf m) nowIso)

theorem C8_witness :
    syncMeetingState "meeting.updated" { emptyObject with id := some "m1" } "iso" false
      (upsertAssoc [] "m1"
        (applyMeetingPatch (meetingPatchOf { emptyObject with id := some "m1" }) "iso")) =
      some (upsertAssoc [] "m1"
        (applyMeetingPatch (meetingPatchOf { emptyObject with id := some "m1" }) "iso")) :=
  C8_delta_idempotent "meeting.updated" { emptyObject with id := some "m1" } "iso" "m1" []
    _ rfl rfl

/-- Claim C9: the pagination loop requests a page, yields its items, stops
when the returned cursor is empty and continues with the cursor otherwise;
for scenario B (page 1 `[u1]` with cursor `"X"`, page 2 `[u2]` with empty
cursor) `listUsers` yields exactly `[u1, u2]` and terminates. -/
theorem C9_pagination (pageOf : String → List RemoteUser × String) (fuel : Nat)
    (cursor : String) (acc : List RemoteUser) (u1 u2 : RemoteUser) :
    ((pageOf cursor).2 = "" →
      listUsersPaged pageOf (fuel + 1) cursor acc = some (acc ++ (pageOf cursor).1)) ∧
    ((pageOf cursor).2 ≠ "" →
      listUsersPaged pageOf (fuel + 1) cursor acc =
        listUsersPaged pageOf fuel (pageOf cursor).2 (acc ++ (pageOf cursor).1)) ∧
    (listUsers (scenarioBProvider u1 u2) 2 = some [u1, u2]) := by
  refine ⟨fun h => ?_, fun h => ?_, ?_⟩
  · simp [listUsersPaged, h]
  · simp [listUsersPaged, h]
  · simp [listUsers, listUsersPaged, scenarioBProvider]

theorem C9_witness :
    listUsersPaged (scenarioBProvider ⟨"u1", none, none, none, none, none, none, none,
        none, none, none, none⟩
      ⟨"u2", none, none, none, none, none, none, none, none, none, none, none⟩) 1 "X" [] =
      some ([] ++ [⟨"u2", none, none, none, none, none, none, none, none, none, none, none⟩]) ∧
    listUsers (scenarioBProvider ⟨"u1", none, none, none, none, none, none, none,
        none, none, none, none⟩
      ⟨"u2", none, none, none, none, none, none, none, none, none, none, none⟩) 2 =
      some [⟨"u1", none, none, none, none, none, none, none, none, none, none, none⟩,
            ⟨"u2", none, none, none, none, none, none, none, none, none, none, none⟩] :=
  ⟨(C9_pagination (scenarioBProvider ⟨"u1", none, none, none, none, none, none, none,
        none, none, none, none⟩
      ⟨"u2", none, none, none, none, none, none, none, none, none, none, none⟩) 0 "X" []
      ⟨"u1", none, none, none, none, none, none, none, none, none, none, none⟩
      ⟨"u2", none, none, none, none, none, none, none, none, none, none, none⟩).1 rfl,
   (C9_pagination (scenarioBProvider ⟨"u1", none, none, none, none, none, none, none,
        none, none, none, none⟩
      ⟨"u2", none, none, none, none, none, none, none, none, none, none, none⟩) 0 "" []
      ⟨"u1", none, none, none, none, none, none, none, none, none, none, none⟩
      ⟨"u2", none, none, none, none, none, none, none, none, none, none, none⟩).2.2⟩

/-- Claim C10: the cron-trigger handler refreshes the credential before the
`switch (action)`; an unknown action with no stored credential answers 500
`No Zoom tokens found` rather than 400, and an unknown action with a stale
credential still performs exactly one refresh (persisting the new pair)
before answering 400 `Unknown action`. -/
theorem C10_refresh_before_dispatch (cs a : String) (now : Int)
    (resp : RefreshResponse) (t : TokenRow)
    (ha : knownCronActions.contains a = false) :
    (cronTrigger (some cs) (some cs) (some a) none now resp =
      ⟨500, some "No Zoom tokens found", none, 0⟩) ∧
    (t.expires_at - now ≤ 300 * 1000 → resp.ok = true →
      cronTrigger (some cs) (some cs) (some a) (some t) now resp =
        ⟨400, some "Unknown action",
         some ⟨resp.access_token, resp.refresh_token, now + resp.expires_in * 1000⟩, 1⟩) := by
  constructor
  · simp [cronTrigger, refreshZoomToken]
  · intro h h2
    have hr : refreshZoomToken (some t) now resp =
        .ok (resp.access_token,
             some ⟨resp.access_token, resp.refresh_token, now + resp.expires_in * 1000⟩, 1) := by
      rw [refreshZoomToken, if_neg (by omega)]
      simp [h2]
    simp [cronTrigger, hr, ha]
    simpa using ha

theorem C10_witness :
    cronTrigger (some "cs") (some "cs") (some "bogus") none 1000000
      ⟨true, "at2", "rt2", 3600⟩ = ⟨500, some "No Zoom tokens found", none, 0⟩ ∧
    cronTrigger (some "cs") (some "cs") (some "bogus") (some ⟨"at", "rt", 1200000⟩) 1000000
      ⟨true, "at2", "rt2", 3600⟩ =
      ⟨400, some "Unknown action", some ⟨"at2", "rt2", 1000000 + 3600 * 1000⟩, 1⟩ :=
  ⟨(C10_refresh_before_dispatch "cs" "bogus" 1000000 ⟨true, "at2", "rt2", 3600⟩
      ⟨"at", "rt", 1200000⟩ (by decide)).1,
   (C10_refresh_before_dispatch "cs" "bogus" 1000000 ⟨true, "at2", "rt2", 3600⟩
      ⟨"at", "rt", 1200000⟩ (by decide)).2 (by decide) rfl⟩

/-- On present signature and timestamp headers the verifier is the falsy
guard, the staleness window and the string comparison; a plain reduction of
the match. -/
theorem verifyZoomSignature_some (now : Int) (secret : Option String) (s : String)
    (t : Int) (rawBody : String) :
    verifyZoomSignature now secret (some s) (some t) rawBody =
      (if s = "" then false
       else if (now - t).natAbs > 300 then false
       else s == zoomSignatureFor (secret.getD "") t rawBody) := rfl

/-- Claim C2: verification fails on a missing signature or timestamp header,
fails outside the 300-second window (in particular at 301 seconds), and
inside the window succeeds exactly on the string
`'v0=' + hex(HMAC-SHA256(secret, 'v0:' + timestamp + ':' + body))`; a body
mutation that changes the HMAC makes the previously valid signature fail. -/
theorem C2_signature_verification (now : Int) (secret : Option String)
    (t : Int) (rawBody : String) :
    (∀ ts, verifyZoomSignature now secret none ts rawBody = false) ∧
    (∀ s, verifyZoomSignature now secret s none rawBody = false) ∧
    ((now - t).natAbs > 300 →
      ∀ s, verifyZoomSignature now secret (some s) (some t) rawBody = false) ∧
    ((now - t).natAbs ≤ 300 →
      ∀ s, (verifyZoomSignature now secret (some s) (some t) rawBody = true ↔
        s = zoomSignatureFor (secret.getD "") t rawBody)) ∧
    ((now - t).natAbs ≤ 300 → ∀ body2,
      zoomSignatureFor (secret.getD "") t body2 ≠ zoomSignatureFor (secret.getD "") t rawBody →
      verifyZoomSignature now secret (some (zoomSignatureFor (secret.getD "") t rawBody))
        (some t) body2 = false) := by
  refine ⟨fun ts => ?_, fun s => ?_, fun h s => ?_, fun h s => ?_, fun h body2 hne => ?_⟩
  · cases ts <;> rfl
  · cases s <;> rfl
  · rw [verifyZoomSignature_some]
    by_cases hs : s = ""
    · rw [if_pos hs]
    · rw [if_neg hs, if_pos h]
  · rw [verifyZoomSignature_some]
    by_cases hs : s = ""
    · rw [if_pos hs]
      subst hs
      exact iff_of_false (by simp) fun e2 => zoomSignatureFor_ne_empty _ _ _ e2.symm
    · rw [if_neg hs, if_neg (by omega)]
      simp
  · rw [verifyZoomSignature_some,
      if_neg (zoomSignatureFor_ne_empty (secret.getD "") t rawBody), if_neg (by omega)]
    exact beq_eq_false_iff_ne.mpr fun e2 => hne e2.symm

set_option maxRecDepth 40000 in
theorem C2_witness :
    verifyZoomSignature 1000 (some "sec") none (some 1000) "rb" = false ∧
    verifyZoomSignature 1301 (some "sec") (some "v0=x") (some 1000) "rb" = false ∧
    verifyZoomSignature 1000 (some "sec") (some (zoomSignatureFor "sec" 1000 "rb"))
      (some 1000) "rb" = true ∧
    verifyZoomSignature 1000 (some "sec") (some (zoomSignatureFor "sec" 1000 "rb"))
      (some 1000) "rc" = false :=
  ⟨(C2_signature_verification 1000 (some "sec") 1000 "rb").1 (some 1000),
   (C2_signature_verification 1301 (some "sec") 1000 "rb").2.2.1 (by decide) "v0=x",
   ((C2_signature_verification 1000 (some "sec") 1000 "rb").2.2.2.1 (by decide) _).mpr rfl,
   (C2_signature_verification 1000 (some "sec") 1000 "rb").2.2.2.2 (by decide) "rc"
     (by decide)⟩

/-- Claim C5: a meeting delta whose payload omits `topic` leaves the stored
`topic` unchanged (absent fields are skipped on upsert, never written as
null), and likewise the user upsert path for an omitted `status`. -/
theorem C5_partial_payload_merge (ev : String) (m u : ZoomObject) (nowIso : String)
    (tbl : MeetingsTable) (utbl : UsersTable) (mid uid : String)
    (row : MeetingRow) (urow : UserRow) :
    (ev ≠ "meeting.deleted" → m.id = some mid → m.topic = none →
      lookupAssoc tbl mid = some row →
      (syncMeetingState ev m nowIso false tbl).map
        (fun t2 => (lookupAssoc t2 mid).map MeetingRow.topic) = some (some row.topic)) ∧
    (ev ≠ "user.deleted" → ev ≠ "user.disassociated" → u.id = some uid → u.status = none →
      lookupAssoc utbl uid = some urow →
      (lookupAssoc (syncUserState ev u nowIso false utbl) uid).map UserRow.status =
        some urow.status) := by
  constructor
  · intro h1 h2 h3 h4
    have hs : syncMeetingState ev m nowIso false tbl =
        some (upsertAssoc tbl mid (applyMeetingPatch (meetingPatchOf m) nowIso)) := by
      unfold syncMeetingState
      rw [h2]
      simp [h1]
    rw [hs, Option.map_some', lookupAssoc_upsertAssoc_eq, h4]
    simp [applyMeetingPatch, meetingPatchOf, h3, mergeField]
  · intro h1 h2 h3 h4 h5
    have hs : syncUserState ev u nowIso false utbl =
        upsertAssoc utbl uid (applyUserPatch (userPatchOf u) nowIso) := by
      unfold syncUserState
      rw [h3]
      simp [h1, h2]
    rw [hs, lookupAssoc_upsertAssoc_eq, h5]
    simp [applyUserPatch, userPatchOf, h4, mergeField]

theorem C5_witness :
    (syncMeetingState "meeting.updated" { emptyObject with id := some "m1" } "iso" false
        [("m1", sampleMeetingRow)]).map
      (fun t2 => (lookupAssoc t2 "m1").map MeetingRow.topic) =
      some (some sampleMeetingRow.topic) ∧
    (lookupAssoc (syncUserState "user.updated" { emptyObject with id := some "b" } "iso" false
        [("b", sampleUserRow)]) "b").map UserRow.status = some sampleUserRow.status :=
  ⟨(C5_partial_payload_merge "meeting.updated" { emptyObject with id := some "m1" }
      { emptyObject with id := some "b" } "iso" [("m1", sampleMeetingRow)]
      [("b", sampleUserRow)] "m1" "b" sampleMeetingRow sampleUserRow).1
      (by decide) rfl rfl rfl,
   (C5_partial_payload_merge "user.updated" { emptyObject with id := some "m1" }
      { emptyObject with id := some "b" } "iso" [("m1", sampleMeetingRow)]
      [("b", sampleUserRow)] "m1" "b" sampleMeetingRow sampleUserRow).2
      (by decide) (by decide) rfl rfl rfl⟩

/-- Claim C4, amended: the audit append is unconditional with respect to the
entity mutation only for the relevant meeting events — the record is inserted
before the delete/upsert, so any entity-store failure (and even the missing-id
crash) leaves exactly one appended record; the `user.*` branch, however,
writes no audit record at all. -/
theorem C4_audit_meeting_events_only (secret : Option String) (now : Int) (nowIso : String)
    (beh : StoreBehavior) (sig : Option String) (ts : Option Int) (rawBody : String)
    (body : WebhookBody) (db : ChronosDB)
    (hv : verifyZoomSignature now secret sig ts rawBody = true)
    (hne : body.event ≠ "endpoint.url_validation") :
    (relevantEvents.contains body.event = true → beh.logErr = false →
      (handleWebhook secret now nowIso beh sig ts rawBody body db).1.zoom_events =
        db.zoom_events ++ [eventRecordOf body]) ∧
    (strStartsWith body.event "user." = true → relevantEvents.contains body.event = false →
      (handleWebhook secret now nowIso beh sig ts rawBody body db).1.zoom_events =
        db.zoom_events) := by
  constructor
  · intro hrel hlog
    unfold handleWebhook
    rw [if_neg hne]
    simp only [hv, hrel, hlog]
    cases hsync : syncMeetingState body.event body.object nowIso beh.entityErr db.zoom_meetings <;>
      simp [hsync]
  · intro hu hnrel
    have hnrel2 : body.event ∉ relevantEvents := by simpa using hnrel
    unfold handleWebhook
    rw [if_neg hne]
    simp [hv, hnrel2, hu]

/-- The claim as frozen is false on the code: a verified `user.created` event
is applied to `zoom_users` yet appends no `WebhookEventRecord` — the audit log
stays empty. -/
theorem C4_counterexample :
    (handleWebhook (some "sec") 1000 "iso" noStoreErr
        (some (zoomSignatureFor "sec" 1000 "rb")) (some 1000) "rb"
        sampleUserEvent emptyDB).1.zoom_events = [] ∧
    (handleWebhook (some "sec") 1000 "iso" noStoreErr
        (some (zoomSignatureFor "sec" 1000 "rb")) (some 1000) "rb"
        sampleUserEvent emptyDB).2 = ⟨200, RespBody.ok⟩ ∧
    (handleWebhook (some "sec") 1000 "iso" noStoreErr
        (some (zoomSignatureFor "sec" 1000 "rb")) (some 1000) "rb"
        sampleUserEvent emptyDB).1.zoom_users ≠ emptyDB.zoom_users := by
  have hv := verify_self 1000 1000 "sec" "rb" (by decide)
  refine ⟨?_, ?_, ?_⟩ <;>
    simp [handleWebhook, hv, sampleUserEvent, emptyDB, emptyObject, noStoreErr, syncUserState,
      strStartsWith, listStarts, relevantEvents, upsertAssoc]

theorem C4_witness :
    (handleWebhook (some "sec") 1000 "iso" ⟨false, true⟩
        (some (zoomSignatureFor "sec" 1000 "rb")) (some 1000) "rb"
        sampleMeetingEvent emptyDB).1.zoom_events = [eventRecordOf sampleMeetingEvent] ∧
    (handleWebhook (some "sec") 1000 "iso" noStoreErr
        (some (zoomSignatureFor "sec" 1000 "rb")) (some 1000) "rb"
        sampleUserEvent emptyDB).1.zoom_events = [] :=
  ⟨(C4_audit_meeting_events_only (some "sec") 1000 "iso" ⟨false, true⟩
      (some (zoomSignatureFor "sec" 1000 "rb")) (some 1000) "rb" sampleMeetingEvent emptyDB
      (verify_self 1000 1000 "sec" "rb" (by decide)) (by decide)).1 (by decide) rfl,
   (C4_audit_meeting_events_only (some "sec") 1000 "iso" noStoreErr
      (some (zoomSignatureFor "sec" 1000 "rb")) (some 1000) "rb" sampleUserEvent emptyDB
      (verify_self 1000 1000 "sec" "rb" (by decide)) (by decide)).2 (by decide) (by decide)⟩

/-- Claim C6, amended: an entity-store failure during a webhook delta apply is
logged and swallowed — the handler still answers HTTP 200 `{success:true}`
and the meetings table is simply left unchanged; only the audit write shares
this best-effort behavior. -/
theorem C6_store_errors_swallowed (secret : Option String) (now : Int) (nowIso : String)
    (sig : Option String) (ts : Option Int) (rawBody : String) (body : WebhookBody)
    (db : ChronosDB) (logErr : Bool)
    (hv : verifyZoomSignature now secret sig ts rawBody = true)
    (hne : body.event ≠ "endpoint.url_validation")
    (hrel : relevantEvents.contains body.event = true)
    (hid : body.object.id.isSome = true) :
    (handleWebhook secret now nowIso ⟨logErr, true⟩ sig ts rawBody body db).2 =
      ⟨200, RespBody.ok⟩ ∧
    (handleWebhook secret now nowIso ⟨logErr, true⟩ sig ts rawBody body db).1.zoom_meetings =
      db.zoom_meetings := by
  obtain ⟨mid, hmid⟩ := Option.isSome_iff_exists.mp hid
  have hrel2 : body.event ∈ relevantEvents := by simpa using hrel
  have hsync : ∀ tbl, syncMeetingState body.event body.object nowIso true tbl = some tbl := by
    intro tbl
    unfold syncMeetingState
    rw [hmid]
    by_cases hev : body.event = "meeting.deleted" <;> simp [hev]
  constructor <;>
    · unfold handleWebhook
      rw [if_neg hne]
      simp [hv, hrel2, hsync]
      try cases logErr <;> simp [hrel2]

/-- The claim as frozen is false on the code: a verified `meeting.updated`
event whose entity upsert fails still gets the success acknowledgment
HTTP 200 `{success:true}`, not a non-success response. -/
theorem C6_counterexample :
    (handleWebhook (some "sec") 1000 "iso" ⟨false, true⟩
        (some (zoomSignatureFor "sec" 1000 "rb")) (some 1000) "rb"
        sampleMeetingEvent emptyDB).2 = ⟨200, RespBody.ok⟩ := by
  have hv := verify_self 1000 1000 "sec" "rb" (by decide)
  simp [handleWebhook, hv, sampleMeetingEvent, emptyDB, emptyObject, syncMeetingState,
    relevantEvents]

theorem C6_witness :
    (handleWebhook (some "sec") 1000 "iso" ⟨false, true⟩
        (some (zoomSignatureFor "sec" 1000 "rb")) (some 1000) "rb"
        sampleMeetingEvent emptyDB).2 = ⟨200, RespBody.ok⟩ ∧
    (handleWebhook (some "sec") 1000 "iso" ⟨false, true⟩
        (some (zoomSignatureFor "sec" 1000 "rb")) (some 1000) "rb"
        sampleMeetingEvent emptyDB).1.zoom_meetings = emptyDB.zoom_meetings :=
  C6_store_errors_swallowed (some "sec") 1000 "iso"
    (some (zoomSignatureFor "sec" 1000 "rb")) (some 1000) "rb" sampleMeetingEvent emptyDB
    false (verify_self 1000 1000 "sec" "rb" (by decide)) (by decide) (by decide) (by decide)

/-- Claim C7: the signature bypass is taken only for `endpoint.url_validation`
— that event answers exactly `{plainToken, encryptedToken}` with HTTP 200 for
any headers, `encryptedToken` being the hex HMAC of the plain token; every
other event that fails verification answers HTTP 401 with the database
untouched. -/
theorem C7_challenge_isolation (secret : Option String) (s : String) (now : Int)
    (nowIso : String) (beh : StoreBehavior) (sig : Option String) (ts : Option Int)
    (rawBody : String) (body : WebhookBody) (db : ChronosDB) :
    (body.event = "endpoint.url_validation" → secret = some s →
      handleWebhook secret now nowIso beh sig ts rawBody body db =
        (db, ⟨200, RespBody.validation body.plainToken
          (hexOfBytes (hmacSha256 (strBytes s) (strBytes (body.plainToken.getD ""))))⟩)) ∧
    (body.event ≠ "endpoint.url_validation" →
      verifyZoomSignature now secret sig ts rawBody = false →
      handleWebhook secret now nowIso beh sig ts rawBody body db =
        (db, ⟨401, RespBody.unauthorized⟩)) := by
  constructor
  · intro h1 h2
    subst h2
    simp [handleWebhook, h1]
  · intro h1 h2
    unfold handleWebhook
    rw [if_neg h1]
    simp [h2]

theorem C7_witness :
    handleWebhook (some "sec") 1000 "iso" noStoreErr none none "rb"
        { event := "endpoint.url_validation", plainToken := some "pt",
          object := emptyObject, event_ts := none } emptyDB =
      (emptyDB, ⟨200, RespBody.validation (some "pt")
        (hexOfBytes (hmacSha256 (strBytes "sec") (strBytes "pt")))⟩) ∧
    handleWebhook (some "sec") 1000 "iso" noStoreErr none none "rb"
        sampleMeetingEvent emptyDB = (emptyDB, ⟨401, RespBody.unauthorized⟩) :=
  ⟨(C7_challenge_isolation (some "sec") "sec" 1000 "iso" noStoreErr none none "rb"
      { event := "endpoint.url_validation", plainToken := some "pt",
        object := emptyObject, event_ts := none } emptyDB).1 rfl rfl,
   (C7_challenge_isolation (some "sec") "sec" 1000 "iso" noStoreErr none none "rb"
      sampleMeetingEvent emptyDB).2 (by decide) rfl⟩

end Chronos
